import Mathlib

/-!
Shallow embedding of the `dbs-cli` confidential-VM launch path.

The program under study is `CliInstance::run_vmm_server` in
`src/cli_instance.rs` together with the argument structures of
`src/parser/args.rs`.  External collaborators (the `aeb` attestation
broker library, the filesystem, and the dragonball VM control channel)
are modelled as an environment `Env` of pre-determined responses; the
run of `run_vmm_server` is embedded as a pure function from the parsed
arguments and the environment to a `RunResult`: the ordered trace of
externally visible events together with the final outcome (normal
return, error return via `bail!` / `?`, or process abort via
`unwrap` / `expect` / `panic!`).
-/

namespace DbsCli

/-- Mirrors `CpuTopologyArgs` of `src/parser/args.rs`. -/
structure CpuTopologyArgs where
  threads_per_core : Nat
  cores_per_die : Nat
  dies_per_socket : Nat
  sockets : Nat
deriving DecidableEq, Repr

/-- Mirrors `RootfsArgs` of `src/parser/args.rs`. -/
structure RootfsArgs where
  rootfs : Option String
  is_root : Bool
  is_read_only : Bool
deriving DecidableEq, Repr

/-- Mirrors `CreateArgs` of `src/parser/args.rs`. -/
structure CreateArgs where
  vcpu : Nat
  max_vcpu : Nat
  cpu_pm : String
  vpmu_feature : Nat
  cpu_topology : CpuTopologyArgs
  mem_type : String
  mem_file_path : String
  mem_size : Nat
  serial_path : Option String
  vsock : String
deriving DecidableEq, Repr

/-- Mirrors `BootArgs` of `src/parser/args.rs`. -/
structure BootArgs where
  kernel_path : Option String
  initrd_path : Option String
  firmware_path : Option String
  boot_args : String
  rootfs_args : RootfsArgs
deriving DecidableEq, Repr

/-- Mirrors `SecurityInfoArgs` of `src/parser/args.rs`. -/
structure SecurityInfoArgs where
  guest_pre_attestation : Bool
  guest_pre_attestation_keyset : Option String
  guest_pre_attestation_proxy : Option String
  guest_pre_attestation_secret_guid : Option String
  guest_pre_attestation_secret_type : Option String
  sev_cert_chain_path : Option String
  sev_guest_policy : Nat
deriving DecidableEq, Repr

/-- Mirrors `Commands` of `src/parser/args.rs`. -/
inductive Commands where
  | create
  | update
deriving DecidableEq, Repr

/-- Mirrors `UpdateArgs` of `src/parser/args.rs`. -/
structure UpdateArgs where
  vcpu_resize : Option Nat
deriving DecidableEq, Repr

/-- Mirrors `DBSArgs` of `src/parser/args.rs`. -/
structure DBSArgs where
  command : Option Commands
  create_args : CreateArgs
  boot_args : BootArgs
  log_file : String
  log_level : String
  api_sock_path : String
  update_args : UpdateArgs
  security_info_args : Option SecurityInfoArgs
deriving DecidableEq, Repr

/-- The fields of `aeb::kbs::GuestPreAttestationConfig` that
`run_vmm_server` reads or writes (the external `aeb` crate supplies a
`Default` for the rest; we keep exactly the touched fields). -/
structure GuestPreAttestationConfig where
  proxy : String
  cert_chain_path : String
  policy : Nat
  keyset : String
  launch_id : String
  firmware : Option String
  kernel : Option String
  initrd : Option String
  cmdline : Option String
  tdhob : Option String
  key_broker_secret_guid : String
  key_broker_secret_type : String
  num_vcpu : Nat
  confidential_vm_type : String
deriving DecidableEq, Repr

/-- `Default::default()` of `GuestPreAttestationConfig`: empty strings,
zero numbers, absent options. -/
def GuestPreAttestationConfig.default : GuestPreAttestationConfig where
  proxy := ""
  cert_chain_path := ""
  policy := 0
  keyset := ""
  launch_id := ""
  firmware := none
  kernel := none
  initrd := none
  cmdline := none
  tdhob := none
  key_broker_secret_guid := ""
  key_broker_secret_type := ""
  num_vcpu := 0
  confidential_vm_type := ""

/-- Mirrors `dragonball::vm::SevSecureChannel` (fields used: cert, session). -/
structure SevSecureChannel where
  cert : String
  session : String
deriving DecidableEq, Repr

/-- The bundle returned by `aeb::setup_sevguest_pre_attestation`
alongside the attestation id: policy, certificate and session blob. -/
structure SevStartBundle where
  policy : Nat
  cert : String
  session : String
deriving DecidableEq, Repr

/-- Mirrors `dragonball::vm::SevStart` as consumed here. -/
structure SevStart where
  is_sev : Bool
  policy : Nat
  secure_channel : Option SevSecureChannel
deriving DecidableEq, Repr

/-- Mirrors `SevStart::new(is_sev, policy, secure_channel)`. -/
def SevStart.new (is_sev : Bool) (policy : Nat)
    (secure_channel : Option SevSecureChannel) : SevStart where
  is_sev := is_sev
  policy := policy
  secure_channel := secure_channel

/-- Mirrors `dragonball::vm::CpuTopology`. -/
structure CpuTopology where
  threads_per_core : Nat
  cores_per_die : Nat
  dies_per_socket : Nat
  sockets : Nat
deriving DecidableEq, Repr

/-- Mirrors `dragonball::vm::VmConfigInfo` as built by `run_vmm_server`. -/
structure VmConfigInfo where
  vcpu_count : Nat
  max_vcpu_count : Nat
  cpu_pm : String
  cpu_topology : CpuTopology
  vpmu_feature : Nat
  mem_type : String
  mem_file_path : String
  mem_size_mib : Nat
  serial_path : Option String
  sev_start : SevStart
deriving DecidableEq, Repr

/-- Mirrors `dragonball::api::v1::BootSourceConfig`. -/
structure BootSourceConfig where
  kernel_path : String
  initrd_path : Option String
  firmware_path : Option String
  boot_args : Option String
deriving DecidableEq, Repr

/-- The fields of `dragonball::api::v1::BlockDeviceConfigInfo` that
`run_vmm_server` sets (the rest stay at their `Default` values and are
not modelled). -/
structure BlockDeviceConfigInfo where
  drive_id : String
  path_on_host : String
  is_root_device : Bool
  is_read_only : Bool
deriving DecidableEq, Repr

/-- `BlockDeviceConfigInfo::default()` restricted to the modelled fields. -/
def BlockDeviceConfigInfo.default : BlockDeviceConfigInfo where
  drive_id := ""
  path_on_host := ""
  is_root_device := false
  is_read_only := false

/-- The fields of `dragonball::api::v1::VsockDeviceConfigInfo` that
`run_vmm_server` sets. -/
structure VsockDeviceConfigInfo where
  guest_cid : Nat
  uds_path : Option String
deriving DecidableEq, Repr

/-- `VsockDeviceConfigInfo::default()` restricted to the modelled fields. -/
def VsockDeviceConfigInfo.default : VsockDeviceConfigInfo where
  guest_cid := 0
  uds_path := none

/-- The payload of `VmmData::SevMeasurement` as consumed by
`run_vmm_server` (fields `measurement`, `build`, `cmdline`, `tdhob`). -/
structure SevMeasurement where
  measurement : String
  build : Nat
  cmdline : Option String
  tdhob : Option String
deriving DecidableEq, Repr

/-- `dragonball::api::v1::VmmData`, collapsed to the distinction the
code makes: the measurement-available variant versus every other
success payload. -/
inductive VmmData where
  | sevMeasurement (msr : SevMeasurement)
  | otherData
deriving DecidableEq, Repr

/-- Mirrors `dragonball::sev::sev::SecretWithGpa`. -/
structure SecretWithGpa where
  secret : String
  gpa : Option Nat
deriving DecidableEq, Repr

/-- Mirrors `dragonball::sev::sev::SevSecretsInjection`. -/
structure SevSecretsInjection where
  secrets : List SecretWithGpa
  resume_vm : Bool
deriving DecidableEq, Repr

/-- Externally visible events of one `run_vmm_server` call, in program
order: broker requests, the serial-file deletion, and the VM Control
Channel submissions. -/
inductive Event where
  | preAttestation (cfg : GuestPreAttestationConfig)
  | removeFile (path : String)
  | setVmConfig (cfg : VmConfigInfo)
  | putBootSource (cfg : BootSourceConfig)
  | insertBlockDevice (cfg : BlockDeviceConfigInfo)
  | insertVsock (cfg : VsockDeviceConfigInfo)
  | startSev
  | secretExchange (cfg : GuestPreAttestationConfig) (measurement : String)
  | injectSecrets (inj : SevSecretsInjection)
deriving DecidableEq, Repr

/-- How one `run_vmm_server` call ends: `Ok(())`, an error return
(`bail!` or `?`), or a process abort (`unwrap`, `expect`, `panic!`). -/
inductive Outcome where
  | ok
  | err (msg : String)
  | panicked (msg : String)
deriving DecidableEq, Repr

/-- True exactly on error returns (used to separate typed error returns
from process aborts). -/
def Outcome.isErr : Outcome → Bool
  | .err _ => true
  | _ => false

/-- Result of one embedded `run_vmm_server` call: its event trace in
program order and its outcome. -/
structure RunResult where
  trace : List Event
  outcome : Outcome
deriving DecidableEq, Repr

/-- Responses of the external collaborators during one call: the `aeb`
broker, the filesystem at the serial path, and the VM Control Channel
round trips (each `Except.error` models the Rust `Err` case). -/
structure Env where
  pre_attestation : Except String (String × SevStartBundle)
  serial_exists : Bool
  remove_file : Except String Unit
  set_vm_configuration : Except String Unit
  put_boot_source : Except String Unit
  insert_block_device : Except String Unit
  insert_vsock : Except String Unit
  instance_start_sev : Except String VmmData
  secret_exchange : Except String String
  inject_sev_secrets : Except String Unit

/-- Panic message of `Option::unwrap` on `None`. -/
def unwrapNoneMsg : String := "called Option::unwrap on a None value"

/-- Panic message of `Result::unwrap` on `Err`. -/
def unwrapErrMsg : String := "called Result::unwrap on an Err value"

/-- Panic message of a bare `panic!()`. -/
def explicitPanicMsg : String := "explicit panic"

/-- The `bail!` message of the kernel/rootfs precondition check. -/
def missingPathMsg : String :=
  "kernel path or rootfs path cannot be None when creating the VM"

/-- The `GuestPreAttestationConfig` built at lines 84-89: proxy,
certificate-chain path and guest policy over `Default::default()`. -/
def preAttestationRequest (proxy cert_chain_path : String) (policy : Nat) :
    GuestPreAttestationConfig :=
  { GuestPreAttestationConfig.default with
    proxy := proxy
    cert_chain_path := cert_chain_path
    policy := policy }

/-- The augmentation of the pre-attestation config performed at lines
191-205 before the secret-exchange call: keyset, transaction id,
firmware/kernel/initrd paths, command line, hand-off block, secret
GUID, secret type, vcpu count, and the constant tag "sev". -/
def secretRequestConfig (sev_config : GuestPreAttestationConfig)
    (args : DBSArgs) (keyset sev_attestation_id guid sty : String)
    (msr : SevMeasurement) : GuestPreAttestationConfig :=
  { sev_config with
    keyset := keyset
    launch_id := sev_attestation_id
    firmware := args.boot_args.firmware_path
    kernel := args.boot_args.kernel_path
    initrd := args.boot_args.initrd_path
    cmdline := msr.cmdline
    tdhob := msr.tdhob
    key_broker_secret_guid := guid
    key_broker_secret_type := sty
    num_vcpu := args.create_args.vcpu
    confidential_vm_type := "sev" }

/-- The augmentation as the specification describes it, for comparison
with `secretRequestConfig`: the pre-attestation configuration changed
in exactly the listed fields (keyset id, transaction id,
firmware/kernel/initrd paths, command line, firmware hand-off block,
secret GUID, secret type) and nothing else. -/
def claimedSecretRequestConfig (sev_config : GuestPreAttestationConfig)
    (args : DBSArgs) (keyset sev_attestation_id guid sty : String)
    (msr : SevMeasurement) : GuestPreAttestationConfig :=
  { sev_config with
    keyset := keyset
    launch_id := sev_attestation_id
    firmware := args.boot_args.firmware_path
    kernel := args.boot_args.kernel_path
    initrd := args.boot_args.initrd_path
    cmdline := msr.cmdline
    tdhob := msr.tdhob
    key_broker_secret_guid := guid
    key_broker_secret_type := sty }

/-- The `BootSourceConfig` built at lines 137-143, given the kernel path
`kp` that the initial check guarantees to be present. -/
def bootSourceOf (args : DBSArgs) (kp : String) : BootSourceConfig where
  kernel_path := kp
  initrd_path := args.boot_args.initrd_path
  firmware_path := args.boot_args.firmware_path
  boot_args := some args.boot_args.boot_args

/-- The root `BlockDeviceConfigInfo` built at lines 146-154, given the
rootfs path `rfs` that the initial check guarantees to be present. -/
def blockDeviceOf (args : DBSArgs) (rfs : String) : BlockDeviceConfigInfo :=
  { BlockDeviceConfigInfo.default with
    drive_id := "rootfs"
    path_on_host := rfs
    is_root_device := args.boot_args.rootfs_args.is_root
    is_read_only := args.boot_args.rootfs_args.is_read_only }

/-- The `VsockDeviceConfigInfo` built at lines 170-175. -/
def vsockConfigOf (args : DBSArgs) : VsockDeviceConfigInfo :=
  { VsockDeviceConfigInfo.default with
    guest_cid := 42
    uds_path := some args.create_args.vsock }

/-- The `VmConfigInfo` built at lines 100-126 from the create arguments
and the pre-attestation start bundle. -/
def vmConfigOf (args : DBSArgs) (start : SevStartBundle) : VmConfigInfo where
  vcpu_count := args.create_args.vcpu
  max_vcpu_count := args.create_args.max_vcpu
  cpu_pm := args.create_args.cpu_pm
  cpu_topology :=
    { threads_per_core := args.create_args.cpu_topology.threads_per_core
      cores_per_die := args.create_args.cpu_topology.cores_per_die
      dies_per_socket := args.create_args.cpu_topology.dies_per_socket
      sockets := args.create_args.cpu_topology.sockets }
  vpmu_feature := 0
  mem_type := args.create_args.mem_type
  mem_file_path := args.create_args.mem_file_path
  mem_size_mib := args.create_args.mem_size
  serial_path := args.create_args.serial_path
  sev_start := SevStart.new true start.policy (some ⟨start.cert, start.session⟩)

/-- Lines 183-219 of `run_vmm_server`: the SEV start request, the
measurement destructuring, the late `unwrap`s of the keyset / secret
GUID / secret type, the secret-exchange broker call and the secret
injection.  Returns only the events this phase itself emits. -/
def runPhase3 (args : DBSArgs) (env : Env) (security_info : SecurityInfoArgs)
    (sev_attestation_id : String) (sev_config : GuestPreAttestationConfig) :
    RunResult :=
  match env.instance_start_sev with
  | .error _ => ⟨[.startSev], .panicked unwrapErrMsg⟩
  | .ok response =>
    match response with
    | .otherData => ⟨[.startSev], .panicked explicitPanicMsg⟩
    | .sevMeasurement msr =>
      match security_info.guest_pre_attestation_keyset with
      | none => ⟨[.startSev], .panicked unwrapNoneMsg⟩
      | some keyset =>
        match security_info.guest_pre_attestation_secret_guid with
        | none => ⟨[.startSev], .panicked unwrapNoneMsg⟩
        | some guid =>
          match security_info.guest_pre_attestation_secret_type with
          | none => ⟨[.startSev], .panicked unwrapNoneMsg⟩
          | some sty =>
            let cfg := secretRequestConfig sev_config args keyset
              sev_attestation_id guid sty msr
            match env.secret_exchange with
            | .error e => ⟨[.startSev, .secretExchange cfg msr.measurement], .err e⟩
            | .ok secret =>
              match env.inject_sev_secrets with
              | .error _ =>
                ⟨[.startSev, .secretExchange cfg msr.measurement,
                  .injectSecrets ⟨[⟨secret, none⟩], true⟩], .panicked unwrapErrMsg⟩
              | .ok _ =>
                ⟨[.startSev, .secretExchange cfg msr.measurement,
                  .injectSecrets ⟨[⟨secret, none⟩], true⟩], .ok⟩

/-- Lines 136-180 of `run_vmm_server`: boot-source and root-block-device
construction and the four ordered VM Control Channel configuration
submissions (the vsock one only when the vsock path is non-empty),
each aborting by `expect` on failure.  Returns only the events this
phase itself emits. -/
def runPhase2 (args : DBSArgs) (env : Env) (security_info : SecurityInfoArgs)
    (sev_attestation_id : String) (sev_config : GuestPreAttestationConfig)
    (vm_config : VmConfigInfo) (kp rfs : String) : RunResult :=
  let boot_source_config : BootSourceConfig := bootSourceOf args kp
  let block_device_config_info : BlockDeviceConfigInfo := blockDeviceOf args rfs
  match env.set_vm_configuration with
  | .error _ =>
    ⟨[.setVmConfig vm_config], .panicked "failed to set vm configuration"⟩
  | .ok _ =>
    match env.put_boot_source with
    | .error _ =>
      ⟨[.setVmConfig vm_config, .putBootSource boot_source_config],
        .panicked "failed to set boot source"⟩
    | .ok _ =>
      match env.insert_block_device with
      | .error _ =>
        ⟨[.setVmConfig vm_config, .putBootSource boot_source_config,
          .insertBlockDevice block_device_config_info],
          .panicked "failed to set block device"⟩
      | .ok _ =>
        if args.create_args.vsock.isEmpty then
          let rest := runPhase3 args env security_info sev_attestation_id sev_config
          ⟨[.setVmConfig vm_config, .putBootSource boot_source_config,
            .insertBlockDevice block_device_config_info] ++ rest.trace,
            rest.outcome⟩
        else
          let vsock_config_info : VsockDeviceConfigInfo := vsockConfigOf args
          match env.insert_vsock with
          | .error _ =>
            ⟨[.setVmConfig vm_config, .putBootSource boot_source_config,
              .insertBlockDevice block_device_config_info,
              .insertVsock vsock_config_info],
              .panicked "failed to set vsock socket path"⟩
          | .ok _ =>
            let rest := runPhase3 args env security_info sev_attestation_id sev_config
            ⟨[.setVmConfig vm_config, .putBootSource boot_source_config,
              .insertBlockDevice block_device_config_info,
              .insertVsock vsock_config_info] ++ rest.trace,
              rest.outcome⟩

/-- The embedding of `CliInstance::run_vmm_server` (lines 75-220 of
`src/cli_instance.rs`): precondition check, `unwrap` of the
security-info arguments and their proxy / certificate-chain fields,
pre-attestation broker call, VM config construction, serial-file
deletion, then `runPhase2` / `runPhase3`. -/
def run_vmm_server (args : DBSArgs) (env : Env) : RunResult :=
  match args.boot_args.kernel_path, args.boot_args.rootfs_args.rootfs with
  | some kp, some rfs =>
    match args.security_info_args with
    | none => ⟨[], .panicked unwrapNoneMsg⟩
    | some security_info =>
      match security_info.guest_pre_attestation_proxy with
      | none => ⟨[], .panicked unwrapNoneMsg⟩
      | some proxy =>
        match security_info.sev_cert_chain_path with
        | none => ⟨[], .panicked unwrapNoneMsg⟩
        | some cert_chain_path =>
          let sev_config := preAttestationRequest proxy cert_chain_path
            security_info.sev_guest_policy
          match env.pre_attestation with
          | .error e => ⟨[.preAttestation sev_config], .err e⟩
          | .ok (sev_attestation_id, start) =>
            let vm_config : VmConfigInfo := vmConfigOf args start
            match args.create_args.serial_path with
            | some sp =>
              if env.serial_exists then
                match env.remove_file with
                | .error e =>
                  ⟨[.preAttestation sev_config, .removeFile sp], .panicked e⟩
                | .ok _ =>
                  let rest := runPhase2 args env security_info sev_attestation_id
                    sev_config vm_config kp rfs
                  ⟨[.preAttestation sev_config, .removeFile sp] ++ rest.trace,
                    rest.outcome⟩
              else
                let rest := runPhase2 args env security_info sev_attestation_id
                  sev_config vm_config kp rfs
                ⟨[.preAttestation sev_config] ++ rest.trace, rest.outcome⟩
            | none =>
              let rest := runPhase2 args env security_info sev_attestation_id
                sev_config vm_config kp rfs
              ⟨[.preAttestation sev_config] ++ rest.trace, rest.outcome⟩
  | _, _ => ⟨[], .err missingPathMsg⟩

/-- Kinds of VM Control Channel submissions, for ordering statements. -/
inductive ChanKind where
  | vmConfig
  | bootSource
  | blockDevice
  | vsock
  | start
  | inject
deriving DecidableEq, Repr

/-- The channel-submission kind of an event; `none` for events that are
not VM Control Channel submissions. -/
def eventChanKind : Event → Option ChanKind
  | .setVmConfig _ => some .vmConfig
  | .putBootSource _ => some .bootSource
  | .insertBlockDevice _ => some .blockDevice
  | .insertVsock _ => some .vsock
  | .startSev => some .start
  | .injectSecrets _ => some .inject
  | _ => none

/-- The sequence of VM Control Channel submission kinds of a trace. -/
def chanKinds (t : List Event) : List ChanKind :=
  t.filterMap eventChanKind

/-- A concrete, fully populated security-info argument record. -/
def sampleSecurityInfo : SecurityInfoArgs where
  guest_pre_attestation := true
  guest_pre_attestation_keyset := some "KEYSET-1"
  guest_pre_attestation_proxy := some "http://proxy:44444"
  guest_pre_attestation_secret_guid := some "e6f5a162"
  guest_pre_attestation_secret_type := some "bundle"
  sev_cert_chain_path := some "/certs/chain.cert"
  sev_guest_policy := 0

/-- A concrete, fully populated argument record used to evaluate the
embedding on the happy path. -/
def sampleArgs : DBSArgs where
  command := some .create
  create_args :=
    { vcpu := 3
      max_vcpu := 4
      cpu_pm := "on"
      vpmu_feature := 0
      cpu_topology := ⟨1, 1, 1, 1⟩
      mem_type := "shmem"
      mem_file_path := ""
      mem_size := 128
      serial_path := some "/tmp/serial"
      vsock := "/tmp/vsock" }
  boot_args :=
    { kernel_path := some "/boot/vmlinuz"
      initrd_path := some "/boot/initrd"
      firmware_path := some "/fw/tdshim"
      boot_args := "console=ttyS0 root=/dev/vda1"
      rootfs_args := ⟨some "/img/root.ext4", true, false⟩ }
  log_file := "dbs-cli.log"
  log_level := "Info"
  api_sock_path := ""
  update_args := ⟨none⟩
  security_info_args := some sampleSecurityInfo

/-- An environment where every external collaborator succeeds. -/
def okEnv : Env where
  pre_attestation := .ok ("txn-1", ⟨7, "CERT", "SESSION"⟩)
  serial_exists := true
  remove_file := .ok ()
  set_vm_configuration := .ok ()
  put_boot_source := .ok ()
  insert_block_device := .ok ()
  insert_vsock := .ok ()
  instance_start_sev := .ok (.sevMeasurement ⟨"MSR", 1, some "CMDLINE", some "TDHOB"⟩)
  secret_exchange := .ok "SECRET"
  inject_sev_secrets := .ok ()

/-- The happy-path environment with a failing secret-exchange call. -/
def attestFailEnv : Env := { okEnv with secret_exchange := .error "rejected" }

/-- `sampleArgs` with the kernel path absent. -/
def argsNoKernel : DBSArgs :=
  { sampleArgs with boot_args := { sampleArgs.boot_args with kernel_path := none } }

/-- `sampleArgs` with the rootfs path absent. -/
def argsNoRootfs : DBSArgs :=
  { sampleArgs with boot_args :=
    { sampleArgs.boot_args with rootfs_args :=
      { sampleArgs.boot_args.rootfs_args with rootfs := none } } }

/-- `sampleArgs` with the security-info arguments absent entirely. -/
def argsNoSecurity : DBSArgs := { sampleArgs with security_info_args := none }

/-- `sampleArgs` with the keyset field of the security-info arguments
absent (all other fields present). -/
def argsNoKeyset : DBSArgs :=
  { sampleArgs with security_info_args := some ({ sampleSecurityInfo with guest_pre_attestation_keyset := none }) }

/-- `sampleArgs` with an empty vsock path. -/
def argsNoVsock : DBSArgs :=
  { sampleArgs with create_args := { sampleArgs.create_args with vsock := "" } }

/-- The happy-path environment whose start response is a success payload
without a measurement. -/
def startOtherEnv : Env := { okEnv with instance_start_sev := .ok .otherData }

/-- The happy-path environment whose serial-file deletion fails. -/
def removeFailEnv : Env := { okEnv with remove_file := .error "permission denied" }

/-- The secret-exchange request configuration that the happy-path run
on `sampleArgs` sends to the broker. -/
def sampleSecretCfg : GuestPreAttestationConfig :=
  secretRequestConfig
    (preAttestationRequest "http://proxy:44444" "/certs/chain.cert" 0)
    sampleArgs "KEYSET-1" "txn-1" "e6f5a162" "bundle"
    ⟨"MSR", 1, some "CMDLINE", some "TDHOB"⟩

theorem runPhase3_attest_fail (args : DBSArgs) (env : Env)
    (si : SecurityInfoArgs) (aid : String) (cfg : GuestPreAttestationConfig)
    (e : String) (h : env.secret_exchange = .error e) :
    (∀ inj, Event.injectSecrets inj ∉ (runPhase3 args env si aid cfg).trace) ∧
    (∀ c m, Event.secretExchange c m ∈ (runPhase3 args env si aid cfg).trace →
      (runPhase3 args env si aid cfg).outcome = .err e) := by
  unfold runPhase3
  repeat' split <;> try simp_all

theorem runPhase3_shape (args : DBSArgs) (env : Env)
    (si : SecurityInfoArgs) (aid : String) (cfg : GuestPreAttestationConfig) :
    (∃ e, env.instance_start_sev = .error e ∧
      runPhase3 args env si aid cfg = ⟨[.startSev], .panicked unwrapErrMsg⟩) ∨
    (env.instance_start_sev = .ok .otherData ∧
      runPhase3 args env si aid cfg = ⟨[.startSev], .panicked explicitPanicMsg⟩) ∨
    (∃ msr, env.instance_start_sev = .ok (.sevMeasurement msr) ∧
      (si.guest_pre_attestation_keyset = none ∨
       si.guest_pre_attestation_secret_guid = none ∨
       si.guest_pre_attestation_secret_type = none) ∧
      runPhase3 args env si aid cfg = ⟨[.startSev], .panicked unwrapNoneMsg⟩) ∨
    (∃ msr keyset guid sty,
      env.instance_start_sev = .ok (.sevMeasurement msr) ∧
      si.guest_pre_attestation_keyset = some keyset ∧
      si.guest_pre_attestation_secret_guid = some guid ∧
      si.guest_pre_attestation_secret_type = some sty ∧
      ((∃ e, env.secret_exchange = .error e ∧
        runPhase3 args env si aid cfg =
          ⟨[.startSev, .secretExchange
              (secretRequestConfig cfg args keyset aid guid sty msr)
              msr.measurement], .err e⟩) ∨
       (∃ secret, env.secret_exchange = .ok secret ∧
        ((∃ e2, env.inject_sev_secrets = .error e2 ∧
          runPhase3 args env si aid cfg =
            ⟨[.startSev, .secretExchange
                (secretRequestConfig cfg args keyset aid guid sty msr)
                msr.measurement,
              .injectSecrets ⟨[⟨secret, none⟩], true⟩], .panicked unwrapErrMsg⟩) ∨
         (env.inject_sev_secrets = .ok () ∧
          runPhase3 args env si aid cfg =
            ⟨[.startSev, .secretExchange
                (secretRequestConfig cfg args keyset aid guid sty msr)
                msr.measurement,
              .injectSecrets ⟨[⟨secret, none⟩], true⟩], .ok⟩))))) := by
  unfold runPhase3
  repeat' split <;> simp_all

theorem runPhase2_shape (args : DBSArgs) (env : Env)
    (si : SecurityInfoArgs) (aid : String) (cfg : GuestPreAttestationConfig)
    (vm : VmConfigInfo) (kp rfs : String) :
    (∃ e, env.set_vm_configuration = .error e ∧
      runPhase2 args env si aid cfg vm kp rfs =
        ⟨[.setVmConfig vm], .panicked "failed to set vm configuration"⟩) ∨
    (∃ e, env.put_boot_source = .error e ∧
      runPhase2 args env si aid cfg vm kp rfs =
        ⟨[.setVmConfig vm, .putBootSource (bootSourceOf args kp)],
          .panicked "failed to set boot source"⟩) ∨
    (∃ e, env.insert_block_device = .error e ∧
      runPhase2 args env si aid cfg vm kp rfs =
        ⟨[.setVmConfig vm, .putBootSource (bootSourceOf args kp),
          .insertBlockDevice (blockDeviceOf args rfs)],
          .panicked "failed to set block device"⟩) ∨
    (∃ e, args.create_args.vsock.isEmpty = false ∧ env.insert_vsock = .error e ∧
      runPhase2 args env si aid cfg vm kp rfs =
        ⟨[.setVmConfig vm, .putBootSource (bootSourceOf args kp),
          .insertBlockDevice (blockDeviceOf args rfs),
          .insertVsock (vsockConfigOf args)],
          .panicked "failed to set vsock socket path"⟩) ∨
    (args.create_args.vsock.isEmpty = true ∧
      runPhase2 args env si aid cfg vm kp rfs =
        ⟨[.setVmConfig vm, .putBootSource (bootSourceOf args kp),
          .insertBlockDevice (blockDeviceOf args rfs)] ++
            (runPhase3 args env si aid cfg).trace,
          (runPhase3 args env si aid cfg).outcome⟩) ∨
    (args.create_args.vsock.isEmpty = false ∧
      runPhase2 args env si aid cfg vm kp rfs =
        ⟨[.setVmConfig vm, .putBootSource (bootSourceOf args kp),
          .insertBlockDevice (blockDeviceOf args rfs),
          .insertVsock (vsockConfigOf args)] ++
            (runPhase3 args env si aid cfg).trace,
          (runPhase3 args env si aid cfg).outcome⟩) := by
  unfold runPhase2
  repeat' split <;> try simp_all

theorem run_vmm_server_shape (args : DBSArgs) (env : Env) :
    ((args.boot_args.kernel_path = none ∨ args.boot_args.rootfs_args.rootfs = none) ∧
      run_vmm_server args env = ⟨[], .err missingPathMsg⟩) ∨
    (∃ kp rfs, args.boot_args.kernel_path = some kp ∧
      args.boot_args.rootfs_args.rootfs = some rfs ∧
      args.security_info_args = none ∧
      run_vmm_server args env = ⟨[], .panicked unwrapNoneMsg⟩) ∨
    (∃ kp rfs si, args.boot_args.kernel_path = some kp ∧
      args.boot_args.rootfs_args.rootfs = some rfs ∧
      args.security_info_args = some si ∧
      (si.guest_pre_attestation_proxy = none ∨ si.sev_cert_chain_path = none) ∧
      run_vmm_server args env = ⟨[], .panicked unwrapNoneMsg⟩) ∨
    (∃ kp rfs si proxy ccp,
      args.boot_args.kernel_path = some kp ∧
      args.boot_args.rootfs_args.rootfs = some rfs ∧
      args.security_info_args = some si ∧
      si.guest_pre_attestation_proxy = some proxy ∧
      si.sev_cert_chain_path = some ccp ∧
      ((∃ e, env.pre_attestation = .error e ∧
        run_vmm_server args env =
          ⟨[.preAttestation (preAttestationRequest proxy ccp si.sev_guest_policy)],
            .err e⟩) ∨
       (∃ aid start, env.pre_attestation = .ok (aid, start) ∧
        ((∃ sp e, args.create_args.serial_path = some sp ∧
          env.serial_exists = true ∧ env.remove_file = .error e ∧
          run_vmm_server args env =
            ⟨[.preAttestation (preAttestationRequest proxy ccp si.sev_guest_policy),
              .removeFile sp], .panicked e⟩) ∨
         (∃ t0,
          ((args.create_args.serial_path = none ∨ env.serial_exists = false) ∧
            t0 = [Event.preAttestation
              (preAttestationRequest proxy ccp si.sev_guest_policy)] ∨
           (∃ sp, args.create_args.serial_path = some sp ∧
            env.serial_exists = true ∧ env.remove_file = .ok () ∧
            t0 = [Event.preAttestation
                (preAttestationRequest proxy ccp si.sev_guest_policy),
              Event.removeFile sp])) ∧
          run_vmm_server args env =
            ⟨t0 ++ (runPhase2 args env si aid
                (preAttestationRequest proxy ccp si.sev_guest_policy)
                (vmConfigOf args start) kp rfs).trace,
              (runPhase2 args env si aid
                (preAttestationRequest proxy ccp si.sev_guest_policy)
                (vmConfigOf args start) kp rfs).outcome⟩))))) := by
  rcases hk : args.boot_args.kernel_path with _ | kp
  · unfold run_vmm_server
    rcases hr : args.boot_args.rootfs_args.rootfs with _ | rfs <;>
      simp only [hk, hr] <;> simp [hk, hr]
  · rcases hr : args.boot_args.rootfs_args.rootfs with _ | rfs
    · unfold run_vmm_server
      simp only [hk, hr]
      simp [hk, hr]
    · unfold run_vmm_server
      simp only [hk, hr]
      repeat' split <;> try simp_all
      all_goals exact ⟨_, _, ⟨rfl, rfl⟩, rfl, rfl⟩

theorem runPhase2_attest_fail (args : DBSArgs) (env : Env)
    (si : SecurityInfoArgs) (aid : String) (cfg : GuestPreAttestationConfig)
    (vm : VmConfigInfo) (kp rfs : String)
    (e : String) (h : env.secret_exchange = .error e) :
    (∀ inj, Event.injectSecrets inj ∉ (runPhase2 args env si aid cfg vm kp rfs).trace) ∧
    (∀ c m, Event.secretExchange c m ∈ (runPhase2 args env si aid cfg vm kp rfs).trace →
      (runPhase2 args env si aid cfg vm kp rfs).outcome = .err e) := by
  obtain ⟨h1, h2⟩ := runPhase3_attest_fail args env si aid cfg e h
  rcases runPhase2_shape args env si aid cfg vm kp rfs with
    ⟨e0, he0, hr⟩ | ⟨e0, he0, hr⟩ | ⟨e0, he0, hr⟩ | ⟨e0, hv, he0, hr⟩ |
    ⟨hv, hr⟩ | ⟨hv, hr⟩ <;>
    rw [hr] <;>
    refine ⟨fun inj => ?_, fun c m hm => ?_⟩ <;>
    try simp_all
  all_goals exact h2 c m hm

/-- C1: if the secret-exchange call of the broker fails, the launch attempt
returns that error and no secret injection (hence no resume signal) is
ever submitted over the VM Control Channel. -/
theorem attestation_failure_aborts_without_injection (args : DBSArgs)
    (env : Env) (e : String) (h : env.secret_exchange = .error e) :
    (∀ inj, Event.injectSecrets inj ∉ (run_vmm_server args env).trace) ∧
    (∀ c m, Event.secretExchange c m ∈ (run_vmm_server args env).trace →
      (run_vmm_server args env).outcome = .err e) := by
  rcases run_vmm_server_shape args env with
    ⟨hne, hrun⟩ | ⟨kp, rfs, hkp, hrfs, hs, hrun⟩ |
    ⟨kp, rfs, si, hkp, hrfs, hsi, hne, hrun⟩ |
    ⟨kp, rfs, si, proxy, ccp, hkp, hrfs, hsi, hpx, hcc, hrest⟩
  · rw [hrun]; simp
  · rw [hrun]; simp
  · rw [hrun]; simp
  · rcases hrest with ⟨e0, hpa, hrun⟩ | ⟨aid, start, hpa, hrest⟩
    · rw [hrun]; simp
    · rcases hrest with ⟨sp, e0, hsp, hse, hrm, hrun⟩ | ⟨t0, ht0, hrun⟩
      · rw [hrun]; simp
      · obtain ⟨hp1, hp2⟩ := runPhase2_attest_fail args env si aid
          (preAttestationRequest proxy ccp si.sev_guest_policy)
          (vmConfigOf args start) kp rfs e h
        rcases ht0 with ⟨hser, rfl⟩ | ⟨sp, hsp, hse, hrm, rfl⟩ <;>
          rw [hrun] <;>
          refine ⟨fun inj => ?_, fun c m hm => ?_⟩ <;>
          try simp_all
        all_goals exact hp2 c m hm

/-- Helper: the configuration carried by any secret-exchange event of a
phase-3 trace bears the transaction id handed to that phase. -/
theorem runPhase3_secretExchange_id (args : DBSArgs) (env : Env)
    (si : SecurityInfoArgs) (aid : String) (cfg : GuestPreAttestationConfig)
    (c : GuestPreAttestationConfig) (m : String)
    (h : Event.secretExchange c m ∈ (runPhase3 args env si aid cfg).trace) :
    c.launch_id = aid := by
  rcases runPhase3_shape args env si aid cfg with
    ⟨e0, he0, hr⟩ | ⟨he0, hr⟩ | ⟨msr, he0, hmiss, hr⟩ |
    ⟨msr, keyset, guid, sty, he0, hks, hgu, hty, hrest⟩
  · rw [hr] at h; simp_all
  · rw [hr] at h; simp_all
  · rw [hr] at h; simp_all
  · rcases hrest with ⟨e0, he, hr⟩ | ⟨secret, hse, ⟨e2, he2, hr⟩ | ⟨hi, hr⟩⟩ <;>
      rw [hr] at h <;> simp_all [secretRequestConfig]

/-- Helper: the same property lifted to phase 2. -/
theorem runPhase2_secretExchange_id (args : DBSArgs) (env : Env)
    (si : SecurityInfoArgs) (aid : String) (cfg : GuestPreAttestationConfig)
    (vm : VmConfigInfo) (kp rfs : String)
    (c : GuestPreAttestationConfig) (m : String)
    (h : Event.secretExchange c m ∈ (runPhase2 args env si aid cfg vm kp rfs).trace) :
    c.launch_id = aid := by
  rcases runPhase2_shape args env si aid cfg vm kp rfs with
    ⟨e0, he0, hr⟩ | ⟨e0, he0, hr⟩ | ⟨e0, he0, hr⟩ | ⟨e0, hv, he0, hr⟩ |
    ⟨hv, hr⟩ | ⟨hv, hr⟩ <;>
    rw [hr] at h <;>
    exact runPhase3_secretExchange_id args env si aid cfg c m (by simp_all)

/-- C1 witness: a concrete run whose secret-exchange call fails with
"rejected" reaches the secret exchange, returns that error, and never
submits the injection. -/
theorem attestation_failure_aborts_without_injection_witness :
    Event.injectSecrets ⟨[⟨"SECRET", none⟩], true⟩ ∉
      (run_vmm_server sampleArgs attestFailEnv).trace ∧
    (run_vmm_server sampleArgs attestFailEnv).outcome = .err "rejected" :=
  ⟨(attestation_failure_aborts_without_injection sampleArgs attestFailEnv
      "rejected" rfl).1 _,
   (attestation_failure_aborts_without_injection sampleArgs attestFailEnv
      "rejected" rfl).2
     (secretRequestConfig
       (preAttestationRequest "http://proxy:44444" "/certs/chain.cert" 0)
       sampleArgs "KEYSET-1" "txn-1" "e6f5a162" "bundle"
       ⟨"MSR", 1, some "CMDLINE", some "TDHOB"⟩)
     "MSR" (by decide)⟩

/-- C2 counterexample: a missing kernel path and a missing rootfs path
produce identical results, the same single combined error, refuting the
claim that the two cases are reported as the distinct errors
MissingKernelPath and MissingRootfs. -/
theorem missing_kernel_and_missing_rootfs_same_error :
    run_vmm_server argsNoKernel okEnv = run_vmm_server argsNoRootfs okEnv ∧
    run_vmm_server argsNoKernel okEnv = ⟨[], .err missingPathMsg⟩ := by
  decide

/-- C2 amended: if the kernel path or the rootfs path is absent, the
launch returns the single combined precondition error before any side
effect: the trace is empty, so no broker request, no VM Control Channel
submission and no file deletion occurred. -/
theorem missing_paths_precondition_error (args : DBSArgs) (env : Env)
    (h : args.boot_args.kernel_path = none ∨
      args.boot_args.rootfs_args.rootfs = none) :
    run_vmm_server args env = ⟨[], .err missingPathMsg⟩ := by
  rcases run_vmm_server_shape args env with
    ⟨hne, hrun⟩ | ⟨kp, rfs, hkp, hrfs, hs, hrun⟩ |
    ⟨kp, rfs, si, hkp, hrfs, hsi, hne, hrun⟩ |
    ⟨kp, rfs, si, proxy, ccp, hkp, hrfs, hsi, hpx, hcc, hrest⟩
  · exact hrun
  · simp_all
  · simp_all
  · simp_all

/-- C2 witness for the amended claim at the concrete missing-kernel
input. -/
theorem missing_paths_precondition_error_witness :
    run_vmm_server argsNoKernel okEnv = ⟨[], .err missingPathMsg⟩ :=
  missing_paths_precondition_error argsNoKernel okEnv (Or.inl rfl)

/-- C3: every secret-exchange request in a launch trace is strictly
preceded by the pre-attestation request, which is the first event of the
trace, and carries the transaction id returned by that pre-attestation;
consequently a secret exchange without a prior transaction id never
proceeds. -/
theorem secret_exchange_preceded_by_pre_attestation (args : DBSArgs)
    (env : Env) (c : GuestPreAttestationConfig) (m : String)
    (h : Event.secretExchange c m ∈ (run_vmm_server args env).trace) :
    ∃ pcfg aid start mid post,
      env.pre_attestation = .ok (aid, start) ∧
      (run_vmm_server args env).trace =
        Event.preAttestation pcfg :: mid ++ Event.secretExchange c m :: post ∧
      c.launch_id = aid := by
  rcases run_vmm_server_shape args env with
    ⟨hne, hrun⟩ | ⟨kp, rfs, hkp, hrfs, hs, hrun⟩ |
    ⟨kp, rfs, si, hkp, hrfs, hsi, hne, hrun⟩ |
    ⟨kp, rfs, si, proxy, ccp, hkp, hrfs, hsi, hpx, hcc, hrest⟩
  · rw [hrun] at h; simp_all
  · rw [hrun] at h; simp_all
  · rw [hrun] at h; simp_all
  · rcases hrest with ⟨e0, hpa, hrun⟩ | ⟨aid, start, hpa, hrest⟩
    · rw [hrun] at h; simp_all
    · rcases hrest with ⟨sp, e0, hsp, hse, hrm, hrun⟩ | ⟨t0, ht0, hrun⟩
      · rw [hrun] at h; simp_all
      · have hmem : Event.secretExchange c m ∈
            (runPhase2 args env si aid
              (preAttestationRequest proxy ccp si.sev_guest_policy)
              (vmConfigOf args start) kp rfs).trace := by
          rcases ht0 with ⟨hser, rfl⟩ | ⟨sp, hsp, hse, hrm, rfl⟩ <;>
            rw [hrun] at h <;> simp_all
        have hid := runPhase2_secretExchange_id args env si aid
          (preAttestationRequest proxy ccp si.sev_guest_policy)
          (vmConfigOf args start) kp rfs c m hmem
        obtain ⟨s, t, hst⟩ := List.append_of_mem hmem
        rcases ht0 with ⟨hser, rfl⟩ | ⟨sp, hsp, hse, hrm, rfl⟩
        · exact ⟨preAttestationRequest proxy ccp si.sev_guest_policy,
            aid, start, s, t, hpa, by rw [hrun]; simp [hst], hid⟩
        · exact ⟨preAttestationRequest proxy ccp si.sev_guest_policy,
            aid, start, Event.removeFile sp :: s, t, hpa,
            by rw [hrun]; simp [hst], hid⟩

/-- C3 witness: the happy-path run exhibits the decomposition at the
concrete secret-exchange request it makes. -/
theorem secret_exchange_preceded_by_pre_attestation_witness :
    ∃ pcfg aid start mid post,
      okEnv.pre_attestation = .ok (aid, start) ∧
      (run_vmm_server sampleArgs okEnv).trace =
        Event.preAttestation pcfg :: mid ++
          Event.secretExchange sampleSecretCfg "MSR" :: post ∧
      sampleSecretCfg.launch_id = aid :=
  secret_exchange_preceded_by_pre_attestation sampleArgs okEnv
    sampleSecretCfg "MSR" (by decide)

/-- Helper: prepending the same list on both sides preserves the
list-segment-at-the-start relation. -/
theorem append_left_mono {α : Type} {l1 l2 : List α} (l : List α)
    (h : l1 <+: l2) : l ++ l1 <+: l ++ l2 := by
  obtain ⟨t, rfl⟩ := h
  exact ⟨t, List.append_assoc l l1 t⟩

/-- Helper: the channel-submission kinds a phase-3 trace emits start
with the SEV start request and end with the injection. -/
theorem runPhase3_kinds (args : DBSArgs) (env : Env)
    (si : SecurityInfoArgs) (aid : String) (cfg : GuestPreAttestationConfig) :
    chanKinds (runPhase3 args env si aid cfg).trace <+:
      [ChanKind.start, ChanKind.inject] := by
  rcases runPhase3_shape args env si aid cfg with
    ⟨e0, he0, hr⟩ | ⟨he0, hr⟩ | ⟨msr, he0, hmiss, hr⟩ |
    ⟨msr, keyset, guid, sty, he0, hks, hgu, hty,
      ⟨e0, he, hr⟩ | ⟨secret, hse, ⟨e2, he2, hr⟩ | ⟨hi, hr⟩⟩⟩ <;>
    rw [hr] <;> simp [chanKinds, eventChanKind]

/-- Helper: the channel-submission kinds a phase-2 trace emits follow
the fixed order resource config, boot source, block device, optional
vsock, start, inject. -/
theorem runPhase2_kinds (args : DBSArgs) (env : Env)
    (si : SecurityInfoArgs) (aid : String) (cfg : GuestPreAttestationConfig)
    (vm : VmConfigInfo) (kp rfs : String) :
    chanKinds (runPhase2 args env si aid cfg vm kp rfs).trace <+:
      [ChanKind.vmConfig, ChanKind.bootSource, ChanKind.blockDevice] ++
        (cond args.create_args.vsock.isEmpty [] [ChanKind.vsock]) ++
        [ChanKind.start, ChanKind.inject] := by
  rcases runPhase2_shape args env si aid cfg vm kp rfs with
    ⟨e0, he0, hr⟩ | ⟨e0, he0, hr⟩ | ⟨e0, he0, hr⟩ | ⟨e0, hv, he0, hr⟩ |
    ⟨hv, hr⟩ | ⟨hv, hr⟩
  · rw [hr]; exact ⟨_, rfl⟩
  · rw [hr]; exact ⟨_, rfl⟩
  · rw [hr]; exact ⟨_, rfl⟩
  · rw [hr, hv]; exact ⟨_, rfl⟩
  · rw [hr, hv]
    exact append_left_mono
      [ChanKind.vmConfig, ChanKind.bootSource, ChanKind.blockDevice]
      (runPhase3_kinds args env si aid cfg)
  · rw [hr, hv]
    exact append_left_mono
      [ChanKind.vmConfig, ChanKind.bootSource, ChanKind.blockDevice,
        ChanKind.vsock]
      (runPhase3_kinds args env si aid cfg)

/-- C4: every launch trace submits over the VM Control Channel in the
fixed order VM resource config, boot source, root block device,
optional vsock (exactly when the vsock path is non-empty), and the SEV
start request after all of them, with the injection last; each run
performs an initial segment of that order, so no submission of a later
kind ever precedes an earlier kind. -/
theorem channel_submission_order (args : DBSArgs) (env : Env) :
    chanKinds (run_vmm_server args env).trace <+:
      [ChanKind.vmConfig, ChanKind.bootSource, ChanKind.blockDevice] ++
        (cond args.create_args.vsock.isEmpty [] [ChanKind.vsock]) ++
        [ChanKind.start, ChanKind.inject] := by
  rcases run_vmm_server_shape args env with
    ⟨hne, hrun⟩ | ⟨kp, rfs, hkp, hrfs, hs, hrun⟩ |
    ⟨kp, rfs, si, hkp, hrfs, hsi, hne, hrun⟩ |
    ⟨kp, rfs, si, proxy, ccp, hkp, hrfs, hsi, hpx, hcc, hrest⟩
  · rw [hrun]; exact ⟨_, rfl⟩
  · rw [hrun]; exact ⟨_, rfl⟩
  · rw [hrun]; exact ⟨_, rfl⟩
  · rcases hrest with ⟨e0, hpa, hrun⟩ | ⟨aid, start, hpa, hrest⟩
    · rw [hrun]; exact ⟨_, rfl⟩
    · rcases hrest with ⟨sp, e0, hsp, hse, hrm, hrun⟩ | ⟨t0, ht0, hrun⟩
      · rw [hrun]; exact ⟨_, rfl⟩
      · rcases ht0 with ⟨hser, rfl⟩ | ⟨sp, hsp, hse, hrm, rfl⟩ <;>
          rw [hrun] <;>
          exact runPhase2_kinds args env si aid
            (preAttestationRequest proxy ccp si.sev_guest_policy)
            (vmConfigOf args start) kp rfs

/-- Helper: a success start response without a measurement makes
phase 3 abort by panic right after the start request. -/
theorem runPhase3_other (args : DBSArgs) (env : Env)
    (si : SecurityInfoArgs) (aid : String) (cfg : GuestPreAttestationConfig)
    (h : env.instance_start_sev = .ok .otherData) :
    runPhase3 args env si aid cfg = ⟨[.startSev], .panicked explicitPanicMsg⟩ := by
  rcases runPhase3_shape args env si aid cfg with
    ⟨e0, he0, hr⟩ | ⟨he0, hr⟩ | ⟨msr, he0, hmiss, hr⟩ |
    ⟨msr, keyset, guid, sty, he0, hks, hgu, hty,
      ⟨e0, he, hr⟩ | ⟨secret, hse, ⟨e2, he2, hr⟩ | ⟨hi, hr⟩⟩⟩ <;>
    simp_all

/-- C5 counterexample: at a concrete input whose start response is a
success payload without a measurement, the launch aborts by panic; the
outcome is not an error return, refuting the claimed typed error
Failed(UnexpectedStartResponse). -/
theorem unexpected_start_response_panics_not_typed_error :
    (run_vmm_server sampleArgs startOtherEnv).outcome =
      .panicked explicitPanicMsg ∧
    (run_vmm_server sampleArgs startOtherEnv).outcome.isErr = false := by
  decide

/-- C5 amended: when the start response decodes to any success variant
other than the measurement payload, a launch that reaches the start
request aborts the process by panic (the bare panic of the `let else`
destructuring) rather than proceeding: no secret-exchange broker call
and no injection occurs afterwards. -/
theorem unexpected_start_response_aborts_by_panic (args : DBSArgs)
    (env : Env) (h : env.instance_start_sev = .ok .otherData)
    (hreach : Event.startSev ∈ (run_vmm_server args env).trace) :
    (run_vmm_server args env).outcome = .panicked explicitPanicMsg ∧
    (∀ c m, Event.secretExchange c m ∉ (run_vmm_server args env).trace) ∧
    (∀ inj, Event.injectSecrets inj ∉ (run_vmm_server args env).trace) := by
  rcases run_vmm_server_shape args env with
    ⟨hne, hrun⟩ | ⟨kp, rfs, hkp, hrfs, hs, hrun⟩ |
    ⟨kp, rfs, si, hkp, hrfs, hsi, hne, hrun⟩ |
    ⟨kp, rfs, si, proxy, ccp, hkp, hrfs, hsi, hpx, hcc, hrest⟩
  · rw [hrun] at hreach; simp_all
  · rw [hrun] at hreach; simp_all
  · rw [hrun] at hreach; simp_all
  · rcases hrest with ⟨e0, hpa, hrun⟩ | ⟨aid, start, hpa, hrest⟩
    · rw [hrun] at hreach; simp_all
    · rcases hrest with ⟨sp, e0, hsp, hse, hrm, hrun⟩ | ⟨t0, ht0, hrun⟩
      · rw [hrun] at hreach; simp_all
      · have h3 := runPhase3_other args env si aid
          (preAttestationRequest proxy ccp si.sev_guest_policy) h
        rcases runPhase2_shape args env si aid
            (preAttestationRequest proxy ccp si.sev_guest_policy)
            (vmConfigOf args start) kp rfs with
          ⟨e0, he0, hr⟩ | ⟨e0, he0, hr⟩ | ⟨e0, he0, hr⟩ | ⟨e0, hv, he0, hr⟩ |
          ⟨hv, hr⟩ | ⟨hv, hr⟩ <;>
          rcases ht0 with ⟨hser, rfl⟩ | ⟨sp, hsp, hse, hrm, rfl⟩ <;>
          rw [hrun] at hreach ⊢ <;>
          rw [hr] at hreach ⊢ <;>
          simp_all

/-- C5 witness for the amended claim: the concrete run on the
no-measurement environment panics. -/
theorem unexpected_start_response_aborts_by_panic_witness :
    (run_vmm_server sampleArgs startOtherEnv).outcome =
      .panicked explicitPanicMsg :=
  (unexpected_start_response_aborts_by_panic sampleArgs startOtherEnv
    rfl (by decide)).1

/-- C6 counterexample: at a concrete input whose serial-file deletion
fails, the run aborts by panic carrying the I/O error; the outcome is
not an error return, refuting the claim that the I/O error is
propagated to the caller as an error return. -/
theorem serial_removal_failure_panics_not_error_return :
    (run_vmm_server sampleArgs removeFailEnv).outcome =
      .panicked "permission denied" ∧
    (run_vmm_server sampleArgs removeFailEnv).outcome.isErr = false := by
  decide

/-- C6 amended: when a file exists at the configured serial path, the
launch deletes it before any VM Control Channel submission (the only
earlier event is the pre-attestation broker request, which is not a
channel submission); if the deletion fails, the run aborts by panic
carrying the I/O error instead of returning it. -/
theorem serial_removal_scoped (args : DBSArgs) (env : Env)
    (kp rfs : String) (si : SecurityInfoArgs) (proxy ccp : String)
    (aid : String) (start : SevStartBundle) (sp : String)
    (hkp : args.boot_args.kernel_path = some kp)
    (hrfs : args.boot_args.rootfs_args.rootfs = some rfs)
    (hsi : args.security_info_args = some si)
    (hpx : si.guest_pre_attestation_proxy = some proxy)
    (hcc : si.sev_cert_chain_path = some ccp)
    (hpa : env.pre_attestation = .ok (aid, start))
    (hsp : args.create_args.serial_path = some sp)
    (hex : env.serial_exists = true) :
    (∀ er, env.remove_file = .error er →
      run_vmm_server args env =
        ⟨[.preAttestation (preAttestationRequest proxy ccp si.sev_guest_policy),
          .removeFile sp], .panicked er⟩) ∧
    (env.remove_file = .ok () →
      ∃ rest, (run_vmm_server args env).trace =
        Event.preAttestation (preAttestationRequest proxy ccp si.sev_guest_policy) ::
          Event.removeFile sp :: rest ∧
        chanKinds
          [Event.preAttestation (preAttestationRequest proxy ccp si.sev_guest_policy),
           Event.removeFile sp] = []) := by
  rcases run_vmm_server_shape args env with
    ⟨hne, hrun⟩ | ⟨kp2, rfs2, hkp2, hrfs2, hs2, hrun⟩ |
    ⟨kp2, rfs2, si2, hkp2, hrfs2, hsi2, hne2, hrun⟩ |
    ⟨kp2, rfs2, si2, proxy2, ccp2, hkp2, hrfs2, hsi2, hpx2, hcc2, hrest⟩
  · simp_all
  · simp_all
  · simp_all
  · rcases hrest with ⟨e0, hpa2, hrun⟩ | ⟨aid2, start2, hpa2, hrest⟩
    · simp_all
    · rcases hrest with ⟨sp2, e0, hsp2, hse2, hrm2, hrun⟩ | ⟨t0, ht0, hrun⟩
      · constructor
        · intro er hre
          rw [hrun]
          simp_all
        · intro hok
          rw [hrm2] at hok
          simp_all
      · rcases ht0 with ⟨hser, rfl⟩ | ⟨sp2, hsp2, hse2, hrm2, rfl⟩
        · simp_all
        · constructor
          · intro er hre
            rw [hrm2] at hre
            simp_all
          · intro hok
            refine ⟨(runPhase2 args env si2 aid2
              (preAttestationRequest proxy2 ccp2 si2.sev_guest_policy)
              (vmConfigOf args start2) kp2 rfs2).trace, ?_, rfl⟩
            rw [hrun]
            simp_all

/-- C6 witness: on the failing-deletion environment the concrete run
panics with the I/O error after exactly the broker request and the
deletion; on the succeeding environment the deletion is the second
event, before every channel submission. -/
theorem serial_removal_scoped_witness :
    run_vmm_server sampleArgs removeFailEnv =
      ⟨[.preAttestation
          (preAttestationRequest "http://proxy:44444" "/certs/chain.cert" 0),
        .removeFile "/tmp/serial"], .panicked "permission denied"⟩ ∧
    (∃ rest, (run_vmm_server sampleArgs okEnv).trace =
      Event.preAttestation
          (preAttestationRequest "http://proxy:44444" "/certs/chain.cert" 0) ::
        Event.removeFile "/tmp/serial" :: rest ∧
      chanKinds
        [Event.preAttestation
          (preAttestationRequest "http://proxy:44444" "/certs/chain.cert" 0),
         Event.removeFile "/tmp/serial"] = []) :=
  ⟨(serial_removal_scoped sampleArgs removeFailEnv "/boot/vmlinuz"
      "/img/root.ext4" sampleSecurityInfo "http://proxy:44444"
      "/certs/chain.cert" "txn-1" ⟨7, "CERT", "SESSION"⟩ "/tmp/serial"
      rfl rfl rfl rfl rfl rfl rfl rfl).1 "permission denied" rfl,
   (serial_removal_scoped sampleArgs okEnv "/boot/vmlinuz"
      "/img/root.ext4" sampleSecurityInfo "http://proxy:44444"
      "/certs/chain.cert" "txn-1" ⟨7, "CERT", "SESSION"⟩ "/tmp/serial"
      rfl rfl rfl rfl rfl rfl rfl rfl).2 rfl⟩

/-- Helper: the augmentation performed by the code equals the spec-described
augmentation plus two further fields: the vcpu count and the
confidential-VM type tag "sev". -/
theorem secretRequestConfig_eq_claimed_plus
    (cfg : GuestPreAttestationConfig) (args : DBSArgs)
    (keyset aid guid sty : String) (msr : SevMeasurement) :
    secretRequestConfig cfg args keyset aid guid sty msr =
      { claimedSecretRequestConfig cfg args keyset aid guid sty msr with
        num_vcpu := args.create_args.vcpu
        confidential_vm_type := "sev" } := rfl

/-- Helper: the exact payload of any secret-exchange event a phase-3
trace contains. -/
theorem runPhase3_secretExchange_form (args : DBSArgs) (env : Env)
    (si : SecurityInfoArgs) (aid : String) (cfg : GuestPreAttestationConfig)
    (c : GuestPreAttestationConfig) (m : String)
    (h : Event.secretExchange c m ∈ (runPhase3 args env si aid cfg).trace) :
    ∃ keyset guid sty msr,
      si.guest_pre_attestation_keyset = some keyset ∧
      si.guest_pre_attestation_secret_guid = some guid ∧
      si.guest_pre_attestation_secret_type = some sty ∧
      env.instance_start_sev = .ok (.sevMeasurement msr) ∧
      m = msr.measurement ∧
      c = secretRequestConfig cfg args keyset aid guid sty msr := by
  rcases runPhase3_shape args env si aid cfg with
    ⟨e0, he0, hr⟩ | ⟨he0, hr⟩ | ⟨msr, he0, hmiss, hr⟩ |
    ⟨msr, keyset, guid, sty, he0, hks, hgu, hty,
      ⟨e0, he, hr⟩ | ⟨secret, hse, ⟨e2, he2, hr⟩ | ⟨hi, hr⟩⟩⟩ <;>
    rw [hr] at h <;> simp_all

/-- Helper: the same property lifted to phase 2. -/
theorem runPhase2_secretExchange_form (args : DBSArgs) (env : Env)
    (si : SecurityInfoArgs) (aid : String) (cfg : GuestPreAttestationConfig)
    (vm : VmConfigInfo) (kp rfs : String)
    (c : GuestPreAttestationConfig) (m : String)
    (h : Event.secretExchange c m ∈ (runPhase2 args env si aid cfg vm kp rfs).trace) :
    ∃ keyset guid sty msr,
      si.guest_pre_attestation_keyset = some keyset ∧
      si.guest_pre_attestation_secret_guid = some guid ∧
      si.guest_pre_attestation_secret_type = some sty ∧
      env.instance_start_sev = .ok (.sevMeasurement msr) ∧
      m = msr.measurement ∧
      c = secretRequestConfig cfg args keyset aid guid sty msr := by
  rcases runPhase2_shape args env si aid cfg vm kp rfs with
    ⟨e0, he0, hr⟩ | ⟨e0, he0, hr⟩ | ⟨e0, he0, hr⟩ | ⟨e0, hv, he0, hr⟩ |
    ⟨hv, hr⟩ | ⟨hv, hr⟩ <;>
    rw [hr] at h <;>
    exact runPhase3_secretExchange_form args env si aid cfg c m (by simp_all)

/-- C7 counterexample: in the concrete happy-path run, the
secret-exchange request differs from the pre-attestation configuration
augmented with exactly the listed fields: the code additionally sets
the vcpu count (3 here, 0 in the spec-described augmentation) and the
confidential-VM type tag. -/
theorem secret_request_not_exactly_spec_augmentation :
    Event.secretExchange sampleSecretCfg "MSR" ∈
      (run_vmm_server sampleArgs okEnv).trace ∧
    sampleSecretCfg ≠ claimedSecretRequestConfig
      (preAttestationRequest "http://proxy:44444" "/certs/chain.cert" 0)
      sampleArgs "KEYSET-1" "txn-1" "e6f5a162" "bundle"
      ⟨"MSR", 1, some "CMDLINE", some "TDHOB"⟩ ∧
    sampleSecretCfg.num_vcpu = 3 ∧
    (claimedSecretRequestConfig
      (preAttestationRequest "http://proxy:44444" "/certs/chain.cert" 0)
      sampleArgs "KEYSET-1" "txn-1" "e6f5a162" "bundle"
      ⟨"MSR", 1, some "CMDLINE", some "TDHOB"⟩).num_vcpu = 0 ∧
    sampleSecretCfg.confidential_vm_type = "sev" := by
  decide

/-- C7 amended: every secret-exchange request equals the
pre-attestation configuration augmented with exactly the keyset id, the
transaction id from pre-attestation, the firmware/kernel/initrd paths,
the command line and firmware hand-off block from the measurement
response, the secret GUID, the secret type, plus two fields the claim
omits, the vcpu count and the constant confidential-VM type tag "sev";
the measurement itself is carried alongside. -/
theorem secret_request_config_exact_form (args : DBSArgs) (env : Env)
    (c : GuestPreAttestationConfig) (m : String)
    (h : Event.secretExchange c m ∈ (run_vmm_server args env).trace) :
    ∃ si keyset guid sty proxy ccp aid start msr,
      args.security_info_args = some si ∧
      si.guest_pre_attestation_proxy = some proxy ∧
      si.sev_cert_chain_path = some ccp ∧
      si.guest_pre_attestation_keyset = some keyset ∧
      si.guest_pre_attestation_secret_guid = some guid ∧
      si.guest_pre_attestation_secret_type = some sty ∧
      env.pre_attestation = .ok (aid, start) ∧
      env.instance_start_sev = .ok (.sevMeasurement msr) ∧
      m = msr.measurement ∧
      c = { claimedSecretRequestConfig
              (preAttestationRequest proxy ccp si.sev_guest_policy)
              args keyset aid guid sty msr with
            num_vcpu := args.create_args.vcpu
            confidential_vm_type := "sev" } := by
  rcases run_vmm_server_shape args env with
    ⟨hne, hrun⟩ | ⟨kp, rfs, hkp, hrfs, hs, hrun⟩ |
    ⟨kp, rfs, si, hkp, hrfs, hsi, hne, hrun⟩ |
    ⟨kp, rfs, si, proxy, ccp, hkp, hrfs, hsi, hpx, hcc, hrest⟩
  · rw [hrun] at h; simp_all
  · rw [hrun] at h; simp_all
  · rw [hrun] at h; simp_all
  · rcases hrest with ⟨e0, hpa, hrun⟩ | ⟨aid, start, hpa, hrest⟩
    · rw [hrun] at h; simp_all
    · rcases hrest with ⟨sp, e0, hsp, hse, hrm, hrun⟩ | ⟨t0, ht0, hrun⟩
      · rw [hrun] at h; simp_all
      · have hmem : Event.secretExchange c m ∈
            (runPhase2 args env si aid
              (preAttestationRequest proxy ccp si.sev_guest_policy)
              (vmConfigOf args start) kp rfs).trace := by
          rcases ht0 with ⟨hser, rfl⟩ | ⟨sp, hsp, hse, hrm, rfl⟩ <;>
            rw [hrun] at h <;> simp_all
        obtain ⟨keyset, guid, sty, msr, hks, hgu, hty, hstart, hm, hc⟩ :=
          runPhase2_secretExchange_form args env si aid
            (preAttestationRequest proxy ccp si.sev_guest_policy)
            (vmConfigOf args start) kp rfs c m hmem
        exact ⟨si, keyset, guid, sty, proxy, ccp, aid, start, msr,
          hsi, hpx, hcc, hks, hgu, hty, hpa, hstart, hm,
          hc.trans (secretRequestConfig_eq_claimed_plus
            (preAttestationRequest proxy ccp si.sev_guest_policy)
            args keyset aid guid sty msr)⟩

/-- C7 witness for the amended claim at the happy-path run. -/
theorem secret_request_config_exact_form_witness :
    ∃ si keyset guid sty proxy ccp aid start msr,
      sampleArgs.security_info_args = some si ∧
      si.guest_pre_attestation_proxy = some proxy ∧
      si.sev_cert_chain_path = some ccp ∧
      si.guest_pre_attestation_keyset = some keyset ∧
      si.guest_pre_attestation_secret_guid = some guid ∧
      si.guest_pre_attestation_secret_type = some sty ∧
      okEnv.pre_attestation = .ok (aid, start) ∧
      okEnv.instance_start_sev = .ok (.sevMeasurement msr) ∧
      "MSR" = msr.measurement ∧
      sampleSecretCfg = { claimedSecretRequestConfig
              (preAttestationRequest proxy ccp si.sev_guest_policy)
              sampleArgs keyset aid guid sty msr with
            num_vcpu := sampleArgs.create_args.vcpu
            confidential_vm_type := "sev" } :=
  secret_request_config_exact_form sampleArgs okEnv sampleSecretCfg "MSR"
    (by decide)

/-- Helper: a measurement response combined with an absent keyset,
secret GUID, or secret type makes phase 3 abort by the unwrap panic
right after the start request, before any secret exchange. -/
theorem runPhase3_missing_fields (args : DBSArgs) (env : Env)
    (si : SecurityInfoArgs) (aid : String) (cfg : GuestPreAttestationConfig)
    (msr : SevMeasurement)
    (hst : env.instance_start_sev = .ok (.sevMeasurement msr))
    (hmiss : si.guest_pre_attestation_keyset = none ∨
      si.guest_pre_attestation_secret_guid = none ∨
      si.guest_pre_attestation_secret_type = none) :
    runPhase3 args env si aid cfg = ⟨[.startSev], .panicked unwrapNoneMsg⟩ := by
  rcases runPhase3_shape args env si aid cfg with
    ⟨e0, he0, hr⟩ | ⟨he0, hr⟩ | ⟨msr2, he0, hmiss2, hr⟩ |
    ⟨msr2, keyset, guid, sty, he0, hks, hgu, hty,
      ⟨e0, he, hr⟩ | ⟨secret, hse, ⟨e2, he2, hr⟩ | ⟨hi, hr⟩⟩⟩ <;>
    simp_all

/-- C8 counterexample: with every security-info field present except
the keyset, the concrete run panics only after the broker was contacted
(the pre-attestation event heads the trace) and after the VM Control
Channel received the start request, refuting the claim that the panic
occurs before contacting the broker or the channel. -/
theorem missing_keyset_panics_after_contact :
    (run_vmm_server argsNoKeyset okEnv).outcome = .panicked unwrapNoneMsg ∧
    Event.startSev ∈ (run_vmm_server argsNoKeyset okEnv).trace ∧
    (run_vmm_server argsNoKeyset okEnv).trace.head? =
      some (.preAttestation
        (preAttestationRequest "http://proxy:44444" "/certs/chain.cert" 0)) := by
  decide

/-- C8 amended: the security-info arguments are required and their
absence aborts by panic, never by a typed error; when the whole
security-info record, its proxy, or its certificate-chain path is
absent the panic occurs before any broker or channel contact (empty
trace), but when only the keyset, secret GUID, or secret type is absent
the panic occurs after boot and measurement, before the secret-exchange
broker call and before injection. -/
theorem missing_security_info_panics :
    (∀ args env kp rfs, args.boot_args.kernel_path = some kp →
      args.boot_args.rootfs_args.rootfs = some rfs →
      (args.security_info_args = none ∨
       (∃ si, args.security_info_args = some si ∧
         (si.guest_pre_attestation_proxy = none ∨
          si.sev_cert_chain_path = none))) →
      run_vmm_server args env = ⟨[], .panicked unwrapNoneMsg⟩) ∧
    (∀ args env si msr,
      args.security_info_args = some si →
      (si.guest_pre_attestation_keyset = none ∨
       si.guest_pre_attestation_secret_guid = none ∨
       si.guest_pre_attestation_secret_type = none) →
      env.instance_start_sev = .ok (.sevMeasurement msr) →
      Event.startSev ∈ (run_vmm_server args env).trace →
      (run_vmm_server args env).outcome = .panicked unwrapNoneMsg ∧
      (∀ c m, Event.secretExchange c m ∉ (run_vmm_server args env).trace) ∧
      (∀ inj, Event.injectSecrets inj ∉ (run_vmm_server args env).trace)) := by
  constructor
  · intro args env kp rfs hkp hrfs hmiss
    rcases run_vmm_server_shape args env with
      ⟨hne, hrun⟩ | ⟨kp2, rfs2, hkp2, hrfs2, hs2, hrun⟩ |
      ⟨kp2, rfs2, si2, hkp2, hrfs2, hsi2, hne2, hrun⟩ |
      ⟨kp2, rfs2, si2, proxy2, ccp2, hkp2, hrfs2, hsi2, hpx2, hcc2, hrest⟩
    · simp_all
    · exact hrun
    · exact hrun
    · rcases hmiss with hs | ⟨si, hsi, hmiss⟩ <;> simp_all
  · intro args env si msr hsi hmiss hst hreach
    rcases run_vmm_server_shape args env with
      ⟨hne, hrun⟩ | ⟨kp, rfs, hkp, hrfs, hs, hrun⟩ |
      ⟨kp, rfs, si2, hkp, hrfs, hsi2, hne, hrun⟩ |
      ⟨kp, rfs, si2, proxy, ccp, hkp, hrfs, hsi2, hpx, hcc, hrest⟩
    · rw [hrun] at hreach; simp_all
    · rw [hrun] at hreach; simp_all
    · rw [hrun] at hreach; simp_all
    · rcases hrest with ⟨e0, hpa, hrun⟩ | ⟨aid, start, hpa, hrest⟩
      · rw [hrun] at hreach; simp_all
      · rcases hrest with ⟨sp, e0, hsp, hse, hrm, hrun⟩ | ⟨t0, ht0, hrun⟩
        · rw [hrun] at hreach; simp_all
        · have hsieq : si2 = si := by
            rw [hsi] at hsi2; exact (Option.some.inj hsi2).symm
          have h3 := runPhase3_missing_fields args env si2 aid
            (preAttestationRequest proxy ccp si2.sev_guest_policy) msr hst
            (hsieq ▸ hmiss)
          rcases runPhase2_shape args env si2 aid
              (preAttestationRequest proxy ccp si2.sev_guest_policy)
              (vmConfigOf args start) kp rfs with
            ⟨e0, he0, hr⟩ | ⟨e0, he0, hr⟩ | ⟨e0, he0, hr⟩ | ⟨e0, hv, he0, hr⟩ |
            ⟨hv, hr⟩ | ⟨hv, hr⟩ <;>
            rcases ht0 with ⟨hser, rfl⟩ | ⟨sp, hsp, hse, hrm, rfl⟩ <;>
            rw [hrun] at hreach ⊢ <;>
            rw [hr] at hreach ⊢ <;>
            simp_all

/-- C8 witness: the concrete no-security-info run panics with an empty
trace, and the concrete missing-keyset run panics late. -/
theorem missing_security_info_panics_witness :
    run_vmm_server argsNoSecurity okEnv = ⟨[], .panicked unwrapNoneMsg⟩ ∧
    (run_vmm_server argsNoKeyset okEnv).outcome = .panicked unwrapNoneMsg :=
  ⟨missing_security_info_panics.1 argsNoSecurity okEnv "/boot/vmlinuz"
      "/img/root.ext4" rfl rfl (Or.inl rfl),
   (missing_security_info_panics.2 argsNoKeyset okEnv
      ({ sampleSecurityInfo with guest_pre_attestation_keyset := none })
      ⟨"MSR", 1, some "CMDLINE", some "TDHOB"⟩ rfl (Or.inl rfl) rfl
      (by decide)).1⟩

/-- Helper: given the broker returned secret `s`, a phase-3 run that
ends normally injected the one-element bundle with no gpa hint and the
resume flag set, and every injection event of any phase-3 trace carries
exactly that bundle. -/
theorem runPhase3_inject_form (args : DBSArgs) (env : Env)
    (si : SecurityInfoArgs) (aid : String) (cfg : GuestPreAttestationConfig)
    (s : String) (hs : env.secret_exchange = .ok s) :
    ((runPhase3 args env si aid cfg).outcome = .ok →
      Event.injectSecrets ⟨[⟨s, none⟩], true⟩ ∈
        (runPhase3 args env si aid cfg).trace) ∧
    (∀ inj, Event.injectSecrets inj ∈ (runPhase3 args env si aid cfg).trace →
      inj = ⟨[⟨s, none⟩], true⟩) := by
  rcases runPhase3_shape args env si aid cfg with
    ⟨e0, he0, hr⟩ | ⟨he0, hr⟩ | ⟨msr, he0, hmiss, hr⟩ |
    ⟨msr, keyset, guid, sty, he0, hks, hgu, hty,
      ⟨e0, he, hr⟩ | ⟨secret, hse, ⟨e2, he2, hr⟩ | ⟨hi, hr⟩⟩⟩ <;>
    rw [hr] <;> simp_all

/-- Helper: the same property lifted to phase 2. -/
theorem runPhase2_inject_form (args : DBSArgs) (env : Env)
    (si : SecurityInfoArgs) (aid : String) (cfg : GuestPreAttestationConfig)
    (vm : VmConfigInfo) (kp rfs : String)
    (s : String) (hs : env.secret_exchange = .ok s) :
    ((runPhase2 args env si aid cfg vm kp rfs).outcome = .ok →
      Event.injectSecrets ⟨[⟨s, none⟩], true⟩ ∈
        (runPhase2 args env si aid cfg vm kp rfs).trace) ∧
    (∀ inj, Event.injectSecrets inj ∈
        (runPhase2 args env si aid cfg vm kp rfs).trace →
      inj = ⟨[⟨s, none⟩], true⟩) := by
  obtain ⟨h1, h2⟩ := runPhase3_inject_form args env si aid cfg s hs
  rcases runPhase2_shape args env si aid cfg vm kp rfs with
    ⟨e0, he0, hr⟩ | ⟨e0, he0, hr⟩ | ⟨e0, he0, hr⟩ | ⟨e0, hv, he0, hr⟩ |
    ⟨hv, hr⟩ | ⟨hv, hr⟩ <;>
    rw [hr] <;> constructor <;> try simp_all
  all_goals intro inj hm
  all_goals exact h2 inj (by simp_all)

/-- C9: on every successful launch the injected bundle is exactly one
secret (the one the broker returned), with no guest-physical-address
hint and with the resume flag set; every injection event of any run
carries exactly that bundle, so none of this is configurable by the
caller. -/
theorem inject_bundle_single_secret (args : DBSArgs) (env : Env)
    (s : String) (hs : env.secret_exchange = .ok s)
    (hok : (run_vmm_server args env).outcome = .ok) :
    Event.injectSecrets ⟨[⟨s, none⟩], true⟩ ∈
      (run_vmm_server args env).trace ∧
    (∀ inj, Event.injectSecrets inj ∈ (run_vmm_server args env).trace →
      inj = ⟨[⟨s, none⟩], true⟩) := by
  rcases run_vmm_server_shape args env with
    ⟨hne, hrun⟩ | ⟨kp, rfs, hkp, hrfs, hs2, hrun⟩ |
    ⟨kp, rfs, si, hkp, hrfs, hsi, hne, hrun⟩ |
    ⟨kp, rfs, si, proxy, ccp, hkp, hrfs, hsi, hpx, hcc, hrest⟩
  · rw [hrun] at hok; simp_all
  · rw [hrun] at hok; simp_all
  · rw [hrun] at hok; simp_all
  · rcases hrest with ⟨e0, hpa, hrun⟩ | ⟨aid, start, hpa, hrest⟩
    · rw [hrun] at hok; simp_all
    · rcases hrest with ⟨sp, e0, hsp, hse, hrm, hrun⟩ | ⟨t0, ht0, hrun⟩
      · rw [hrun] at hok; simp_all
      · obtain ⟨h1, h2⟩ := runPhase2_inject_form args env si aid
          (preAttestationRequest proxy ccp si.sev_guest_policy)
          (vmConfigOf args start) kp rfs s hs
        rcases ht0 with ⟨hser, rfl⟩ | ⟨sp, hsp, hse, hrm, rfl⟩ <;>
          rw [hrun] at hok ⊢ <;>
          refine ⟨?_, fun inj hm => h2 inj (by simp_all)⟩ <;>
          simp_all

/-- C9 witness: the happy-path run injects exactly the one-element
bundle of the broker secret with no gpa and resume set. -/
theorem inject_bundle_single_secret_witness :
    Event.injectSecrets ⟨[⟨"SECRET", none⟩], true⟩ ∈
      (run_vmm_server sampleArgs okEnv).trace :=
  (inject_bundle_single_secret sampleArgs okEnv "SECRET" rfl (by decide)).1

/-- Helper: phase-3 traces contain no vsock and no block-device
submissions. -/
theorem runPhase3_no_config_events (args : DBSArgs) (env : Env)
    (si : SecurityInfoArgs) (aid : String) (cfg : GuestPreAttestationConfig) :
    (∀ v, Event.insertVsock v ∉ (runPhase3 args env si aid cfg).trace) ∧
    (∀ bd, Event.insertBlockDevice bd ∉ (runPhase3 args env si aid cfg).trace) := by
  rcases runPhase3_shape args env si aid cfg with
    ⟨e0, he0, hr⟩ | ⟨he0, hr⟩ | ⟨msr, he0, hmiss, hr⟩ |
    ⟨msr, keyset, guid, sty, he0, hks, hgu, hty,
      ⟨e0, he, hr⟩ | ⟨secret, hse, ⟨e2, he2, hr⟩ | ⟨hi, hr⟩⟩⟩ <;>
    rw [hr] <;> simp_all

/-- Helper: phase-2 vsock and block-device submissions: a vsock event
forces a non-empty vsock path and carries the constant configuration; a
block-device event carries the root block device; and a normally ending
phase 2 with a non-empty vsock path did submit the vsock device. -/
theorem runPhase2_vsock_block (args : DBSArgs) (env : Env)
    (si : SecurityInfoArgs) (aid : String) (cfg : GuestPreAttestationConfig)
    (vm : VmConfigInfo) (kp rfs : String) :
    (∀ v, Event.insertVsock v ∈ (runPhase2 args env si aid cfg vm kp rfs).trace →
      v = vsockConfigOf args ∧ args.create_args.vsock.isEmpty = false) ∧
    (∀ bd, Event.insertBlockDevice bd ∈
        (runPhase2 args env si aid cfg vm kp rfs).trace →
      bd = blockDeviceOf args rfs) ∧
    (args.create_args.vsock.isEmpty = false →
      (runPhase2 args env si aid cfg vm kp rfs).outcome = .ok →
      Event.insertVsock (vsockConfigOf args) ∈
        (runPhase2 args env si aid cfg vm kp rfs).trace) := by
  obtain ⟨hnv, hnb⟩ := runPhase3_no_config_events args env si aid cfg
  rcases runPhase2_shape args env si aid cfg vm kp rfs with
    ⟨e0, he0, hr⟩ | ⟨e0, he0, hr⟩ | ⟨e0, he0, hr⟩ | ⟨e0, hv, he0, hr⟩ |
    ⟨hv, hr⟩ | ⟨hv, hr⟩ <;>
    rw [hr] <;> refine ⟨fun v hm => ?_, fun bd hm => ?_, fun hne hok => ?_⟩ <;>
    simp_all

/-- C10: under a successful launch a vsock device is submitted iff the
vsock path argument is non-empty; in every run any submitted vsock
device has the constant guest context id 42 and the supplied socket
path, and any submitted root block device has the constant drive id
"rootfs". -/
theorem vsock_iff_nonempty_and_constants (args : DBSArgs) (env : Env)
    (hok : (run_vmm_server args env).outcome = .ok) :
    ((∃ v, Event.insertVsock v ∈ (run_vmm_server args env).trace) ↔
      args.create_args.vsock.isEmpty = false) ∧
    (∀ v, Event.insertVsock v ∈ (run_vmm_server args env).trace →
      v.guest_cid = 42 ∧ v.uds_path = some args.create_args.vsock) ∧
    (∀ bd, Event.insertBlockDevice bd ∈ (run_vmm_server args env).trace →
      bd.drive_id = "rootfs") := by
  rcases run_vmm_server_shape args env with
    ⟨hne, hrun⟩ | ⟨kp, rfs, hkp, hrfs, hs2, hrun⟩ |
    ⟨kp, rfs, si, hkp, hrfs, hsi, hne, hrun⟩ |
    ⟨kp, rfs, si, proxy, ccp, hkp, hrfs, hsi, hpx, hcc, hrest⟩
  · rw [hrun] at hok; simp_all
  · rw [hrun] at hok; simp_all
  · rw [hrun] at hok; simp_all
  · rcases hrest with ⟨e0, hpa, hrun⟩ | ⟨aid, start, hpa, hrest⟩
    · rw [hrun] at hok; simp_all
    · rcases hrest with ⟨sp, e0, hsp, hse, hrm, hrun⟩ | ⟨t0, ht0, hrun⟩
      · rw [hrun] at hok; simp_all
      · obtain ⟨ha, hb, hc⟩ := runPhase2_vsock_block args env si aid
          (preAttestationRequest proxy ccp si.sev_guest_policy)
          (vmConfigOf args start) kp rfs
        rcases ht0 with ⟨hser, rfl⟩ | ⟨sp, hsp, hse, hrm, rfl⟩ <;>
          rw [hrun] at hok ⊢ <;>
          refine ⟨⟨fun hex => ?_, fun hne2 => ?_⟩, fun v hm => ?_, fun bd hm => ?_⟩
        · obtain ⟨v, hv⟩ := hex
          exact ((ha v (by simp_all)).2)
        · exact ⟨vsockConfigOf args, by simp [hc hne2 (by simp_all)]⟩
        · have := (ha v (by simp_all)).1
          subst this
          simp [vsockConfigOf, VsockDeviceConfigInfo.default]
        · have := hb bd (by simp_all)
          subst this
          simp [blockDeviceOf, BlockDeviceConfigInfo.default]
        · obtain ⟨v, hv⟩ := hex
          exact ((ha v (by simp_all)).2)
        · exact ⟨vsockConfigOf args, by simp [hc hne2 (by simp_all)]⟩
        · have := (ha v (by simp_all)).1
          subst this
          simp [vsockConfigOf, VsockDeviceConfigInfo.default]
        · have := hb bd (by simp_all)
          subst this
          simp [blockDeviceOf, BlockDeviceConfigInfo.default]

/-- C10 witness: the happy-path run (non-empty vsock path) submits a
vsock device. -/
theorem vsock_iff_nonempty_and_constants_witness :
    ∃ v, Event.insertVsock v ∈ (run_vmm_server sampleArgs okEnv).trace :=
  ((vsock_iff_nonempty_and_constants sampleArgs okEnv (by decide)).1).mpr
    (by decide)

end DbsCli
